import Mathlib

/-!
Verification of the Token Security and Session Lifecycle subsystem of the
google-workspace-remote-mcp repository.

The TypeScript sources are shallowly embedded: each translated definition
carries the name of the source function it embeds (src/utils/encryption.ts,
src/auth/storage.ts, src/auth/tokens.ts, src/auth/state.ts,
src/utils/rate-limit.ts, src/utils/jwt.ts).  Platform primitives that are not
repository code (WebCrypto AES-GCM and HMAC, JSON serialisation, the random
IV source, and the Cloudflare KV transport) are abstracted as explicit
functional parameters: an AEAD decryption oracle, an AEAD encryption oracle,
serialisation oracles, the random value drawn for an IV, and a flag telling
whether a KV put succeeds.  Asynchronous methods are embedded as explicit
state-passing functions returning `Except String` for the thrown/rejected
path together with the final state of the store.
-/

/-- Key/value store contents, modelling a Cloudflare `KVNamespace`:
an association list from key strings to values; `kvPut` prepends so the
most recent write wins on lookup. -/
def kvLookup {α : Type} : List (String × α) → String → Option α
  | [], _ => none
  | (k, v) :: rest, key => if k = key then some v else kvLookup rest key

/-- `KVNamespace.put`: overwrite the value stored under `k`. -/
def kvPut {α : Type} (kv : List (String × α)) (k : String) (v : α) :
    List (String × α) :=
  (k, v) :: kv

@[simp] theorem kvLookup_nil {α : Type} (key : String) :
    kvLookup ([] : List (String × α)) key = none := rfl

@[simp] theorem kvLookup_cons {α : Type} (k : String) (v : α)
    (rest : List (String × α)) (key : String) :
    kvLookup ((k, v) :: rest) key = if k = key then some v else kvLookup rest key := rfl

@[simp] theorem kvLookup_kvPut_same {α : Type} (kv : List (String × α))
    (k : String) (v : α) : kvLookup (kvPut kv k v) k = some v := by
  simp [kvPut]

/-- `EncryptedData` (src/utils/encryption.ts lines 3-7): the stored wire
shape of version, data and iv; `data` and `iv` are base64 strings in the
source, kept as opaque strings here. -/
structure EncryptedData where
  version : Nat
  data : String
  iv : String
deriving DecidableEq, Repr

/-- The slice of `Env` (src/utils/encryption.ts lines 9-14) that the
encryption module reads: the current key string and the optional old key
string.  The `TOKEN_STORE` binding is passed separately as explicit state. -/
structure Env where
  ENCRYPTION_KEY : String
  ENCRYPTION_KEY_OLD : Option String
deriving DecidableEq, Repr

/-- `CURRENT_VERSION` (src/utils/encryption.ts line 16). -/
def CURRENT_VERSION : Nat := 2

/-- AEAD decryption oracle abstracting `webcrypto.subtle.decrypt` under
AES-GCM: key string, iv, ciphertext to recovered plaintext, `none` when the
platform call rejects (wrong key or tampered data). -/
def AEADDec : Type := String → String → String → Option String

/-- AEAD encryption oracle abstracting `webcrypto.subtle.encrypt`:
key string, iv, plaintext to ciphertext. -/
def AEADEnc : Type := String → String → String → String

/-- A KV entry of `TOKEN_STORE`: the stored `EncryptedData` value (the
source stores its JSON serialisation) and the `version` field of the KV
metadata when one was written. -/
structure KVEntry where
  value : EncryptedData
  metaVersion : Option Nat
deriving DecidableEq, Repr

/-- The `TOKEN_STORE` KV namespace contents. -/
def Store : Type := List (String × KVEntry)

/-- `decryptWithKey` (src/utils/encryption.ts lines 57-69): decrypt the
record's ciphertext with the given key and the record's iv; a rejection of
the platform call is `none`. -/
def decryptWithKey (decf : AEADDec) (encrypted : EncryptedData) (key : String) :
    Option String :=
  decf key encrypted.iv encrypted.data

/-- `encryptWithKey` (src/utils/encryption.ts lines 37-52): fresh-iv AEAD
encryption; the iv drawn from `getRandomValues` is the explicit `iv`
argument; the output embeds `CURRENT_VERSION`. -/
def encryptWithKey (encf : AEADEnc) (key iv data : String) : EncryptedData :=
  { version := CURRENT_VERSION, data := encf key iv data, iv := iv }

/-- `encrypt` (src/utils/encryption.ts lines 74-78): encrypt under the
current key; the JSON stringification of the record is modelled as the
record itself. -/
def encrypt (encf : AEADEnc) (env : Env) (iv data : String) : EncryptedData :=
  encryptWithKey encf env.ENCRYPTION_KEY iv data

/-- `performReEncryptionWithConditionalWrite` (src/utils/encryption.ts
lines 159-195): the rotation write-back used when no `ROTATION_LOCK`
binding exists.  The source loop `while (retries < maxRetries)` always
`break`s at the end of its first iteration, so exactly one pass is
executed: read the entry with metadata, throw `Token ... not found` when
absent, no-op when the metadata version is already current, otherwise
re-encrypt and put (metadata version set to `CURRENT_VERSION`).  `putOk`
tells whether the KV put resolves; when it rejects the error propagates and
the store is unchanged. -/
def performReEncryptionWithConditionalWrite (encf : AEADEnc) (putOk : Bool)
    (iv : String) (tokenKey decryptedData : String) (env : Env)
    (store : Store) : Except String Unit × Store :=
  match kvLookup store tokenKey with
  | none => (Except.error ("Token " ++ tokenKey ++ " not found"), store)
  | some existing =>
    if existing.metaVersion = some CURRENT_VERSION then (Except.ok (), store)
    else
      if putOk then
        (Except.ok (),
         kvPut store tokenKey
           { value := encrypt encf env iv decryptedData,
             metaVersion := some CURRENT_VERSION })
      else (Except.error "KV put failed", store)

/-- `reEncryptToken` (src/utils/encryption.ts lines 110-140) in the
deployment without a `ROTATION_LOCK` binding (the claims' cited path):
falls through to the conditional-write rotation. -/
def reEncryptToken (encf : AEADEnc) (putOk : Bool) (iv : String)
    (tokenKey decryptedData : String) (env : Env) (store : Store) :
    Except String Unit × Store :=
  performReEncryptionWithConditionalWrite encf putOk iv tokenKey decryptedData env store

/-- `decrypt` (src/utils/encryption.ts lines 83-105): try the current key
first; on failure, when an old key is configured, retry with it and — when
a `tokenKey` was supplied — run the rotation write-back before returning
the plaintext.  A rejection of the old-key attempt propagates the raw
platform error (modelled `OperationError`); only the no-old-key case throws
`Failed to decrypt with any available key`.  An error thrown by the
write-back propagates out of `decrypt` (the `await reEncryptToken` call is
not guarded). -/
def decrypt (decf : AEADDec) (encf : AEADEnc) (putOk : Bool) (iv : String)
    (parsed : EncryptedData) (env : Env) (tokenKey : Option String)
    (store : Store) : Except String String × Store :=
  match decryptWithKey decf parsed env.ENCRYPTION_KEY with
  | some plaintext => (Except.ok plaintext, store)
  | none =>
    match env.ENCRYPTION_KEY_OLD with
    | some oldKey =>
      match decryptWithKey decf parsed oldKey with
      | some decrypted =>
        match tokenKey with
        | some tk =>
          match reEncryptToken encf putOk iv tk decrypted env store with
          | (Except.ok _, store2) => (Except.ok decrypted, store2)
          | (Except.error e, store2) => (Except.error e, store2)
        | none => (Except.ok decrypted, store)
      | none => (Except.error "OperationError", store)
    | none => (Except.error "Failed to decrypt with any available key", store)

/-- Concrete AEAD decryption oracle used by witnesses and counterexamples:
`cBoth` decrypts under both the current key `KC` and the old key `KO` (to
different plaintexts), `cOld` only under `KO`, everything else fails. -/
def toyDec : AEADDec := fun key _ data =>
  if key = "KC" && data = "cBoth" then some "pNew"
  else if key = "KO" && data = "cBoth" then some "pOld"
  else if key = "KO" && data = "cOld" then some "pOldOnly"
  else none

/-- Concrete AEAD encryption oracle used by witnesses and counterexamples. -/
def toyEnc : AEADEnc := fun key iv data => key ++ "|" ++ iv ++ "|" ++ data

/-- `StoredTokens` (src/auth/storage.ts lines 4-10): the credential record
persisted per user identity. -/
structure StoredTokens where
  access_token : String
  refresh_token : Option String
  expires_at : Int
  token_type : String
  scope : Option String
deriving DecidableEq, Repr

/-- `TokenStorage.getTokens` (src/auth/storage.ts lines 30-47): read the
entry under `tokens:` plus the user id; `null` when absent; otherwise
decrypt with an `Env` holding only this storage's key (no
`ENCRYPTION_KEY_OLD`, so the old-key fallback can never fire here) and
JSON-parse the plaintext (`parseStored` oracle).  Any error thrown by
decryption or parsing is caught, logged and turned into `null`. -/
def TokenStorage.getTokens (decf : AEADDec) (encf : AEADEnc) (putOk : Bool)
    (iv : String) (parseStored : String → Option StoredTokens)
    (encryptionKey : String) (kv : Store) (userId : String) :
    Option StoredTokens :=
  let key := "tokens:" ++ userId
  match kvLookup kv key with
  | none => none
  | some entry =>
    match decrypt decf encf putOk iv entry.value
        { ENCRYPTION_KEY := encryptionKey, ENCRYPTION_KEY_OLD := none }
        (some key) kv with
    | (Except.error _, _) => none
    | (Except.ok decrypted, _) => parseStored decrypted

/-- `TokenStorage.storeTokens` (src/auth/storage.ts lines 18-28): encrypt
the serialised record under the storage's key (again with an `Env` holding
only `ENCRYPTION_KEY`) and put it under `tokens:` plus the user id with a
90-day TTL and no metadata.  `putOk` tells whether the KV put resolves. -/
def TokenStorage.storeTokens (encf : AEADEnc) (iv : String)
    (serializeStored : StoredTokens → String) (putOk : Bool)
    (encryptionKey : String) (kv : Store) (userId : String)
    (tokens : StoredTokens) : Except String Store :=
  let key := "tokens:" ++ userId
  let encrypted := encrypt encf
    { ENCRYPTION_KEY := encryptionKey, ENCRYPTION_KEY_OLD := none }
    iv (serializeStored tokens)
  if putOk then Except.ok (kvPut kv key { value := encrypted, metaVersion := none })
  else Except.error "KV put failed"

/-- `TokenResponse` (documented in the repository's implementation guide,
the `GoogleOAuth` reference implementation: access token, expiry delta in
seconds, optionally a rotated refresh token, scope and token type). -/
structure TokenResponse where
  access_token : String
  expires_in : Int
  refresh_token : Option String
  scope : String
  token_type : String
deriving DecidableEq, Repr

/-- `TokenManager.getValidTokens` (src/auth/tokens.ts lines 41-75): load
the stored record (throw `No tokens found for user` when `null`); return it
as-is when not expired; otherwise require a refresh token (JS truthiness:
`none` and the empty string both throw `No refresh token available`),
invoke the external refresh call, build the updated record by spreading the
old one and overriding only `access_token` and `expires_at`, persist it via
`storeTokens`, and return it.  Any error thrown inside the try block — the
refresh call rejecting or the store write rejecting — is caught and
re-thrown as `Failed to refresh access token`. -/
def TokenManager.getValidTokens (decf : AEADDec) (encf : AEADEnc)
    (iv : String) (parseStored : String → Option StoredTokens)
    (serializeStored : StoredTokens → String) (putOk : Bool)
    (refreshAccessToken : String → Except String TokenResponse)
    (encryptionKey : String) (now : Int) (kv : Store) (userId : String) :
    Except String StoredTokens × Store :=
  match TokenStorage.getTokens decf encf putOk iv parseStored encryptionKey kv userId with
  | none => (Except.error "No tokens found for user", kv)
  | some tokens =>
    if tokens.expires_at ≤ now then
      match tokens.refresh_token with
      | none => (Except.error "No refresh token available", kv)
      | some rt =>
        if rt = "" then (Except.error "No refresh token available", kv)
        else
          match refreshAccessToken rt with
          | Except.error _ => (Except.error "Failed to refresh access token", kv)
          | Except.ok newTokens =>
            let updatedTokens : StoredTokens :=
              { tokens with
                access_token := newTokens.access_token,
                expires_at := now + newTokens.expires_in * 1000 }
            match TokenStorage.storeTokens encf iv serializeStored putOk
                encryptionKey kv userId updatedTokens with
            | Except.ok kv2 => (Except.ok updatedTokens, kv2)
            | Except.error _ => (Except.error "Failed to refresh access token", kv)
    else (Except.ok tokens, kv)

/-- Concrete stored-record parser used by witnesses and counterexamples:
the plaintext `pNew` parses to a record that is expired and carries the
refresh token `rt1`. -/
def toyParse : String → Option StoredTokens := fun s =>
  if s = "pNew" then
    some { access_token := "a1", refresh_token := some "rt1",
           expires_at := 0, token_type := "Bearer", scope := none }
  else none

/-- Concrete serialiser used by witnesses and counterexamples. -/
def toySer : StoredTokens → String := fun t => t.access_token

/-- Concrete external refresh call used by witnesses and counterexamples:
`rt1` refreshes successfully to access token `a2` with a rotated refresh
token `rt2`; everything else rejects. -/
def toyRefresh : String → Except String TokenResponse := fun rt =>
  if rt = "rt1" then
    Except.ok { access_token := "a2", expires_in := 3600,
                refresh_token := some "rt2", scope := "s", token_type := "Bearer" }
  else Except.error "invalid_grant"

/-- `JWTHeader` (src/utils/rate-limit.ts lines 87-90 of the concatenated
module holding `validateJWT`). -/
structure JWTHeader where
  alg : String
  typ : String
deriving DecidableEq, Repr

/-- `JWTPayload` (same module, lines 92-98): the claim set; extra fields
are irrelevant to validation and omitted. -/
structure JWTPayload where
  sub : Option String
  exp : Option Int
  iat : Option Int
  nbf : Option Int
deriving DecidableEq, Repr

/-- The outcome of `validateJWT`: the returned subject, or the thrown
`JWTError` (`JWTMalformedError` with its message, `JWTExpiredError`,
`JWTInvalidSignatureError`). -/
inductive JWTResult where
  | ok (sub : String)
  | malformed (msg : String)
  | expired
  | invalidSignature
deriving DecidableEq, Repr

/-- The `exp` check of `validateJWT` (line 185): present and
`exp < now - clockTolerance`. -/
def expExpired (p : JWTPayload) (now tol : Int) : Bool :=
  match p.exp with
  | some e => e < now - tol
  | none => false

/-- The `nbf` check of `validateJWT` (line 190): present and
`nbf > now + clockTolerance`. -/
def nbfFuture (p : JWTPayload) (now tol : Int) : Bool :=
  match p.nbf with
  | some b => now + tol < b
  | none => false

/-- The `iat` check of `validateJWT` (line 195): present and
`iat > now + clockTolerance`. -/
def iatFuture (p : JWTPayload) (now tol : Int) : Bool :=
  match p.iat with
  | some i => now + tol < i
  | none => false

/-- The `sub` check of `validateJWT` (line 200): JS truthiness of
`payload.sub` — absent and the empty string both fail. -/
def subMissing (p : JWTPayload) : Bool :=
  match p.sub with
  | some s => s = ""
  | none => true

/-- `validateJWT` (src/utils/rate-limit.ts lines 129-205 of the
concatenated module): split into parts (`numParts` is the length of
`token.split` on the dot), decode header and payload (`none` models a
throwing `atob`/`JSON.parse`, one catch covers both), require `HS256`,
verify the HMAC signature (`sigValid` is the result of
`crypto.subtle.verify`), and only then check the claims in the order
`exp`, `nbf`, `iat`, `sub`.  The `nbf` and `iat` failures throw
`JWTMalformedError` — the module has no not-yet-valid error class. -/
def validateJWT (numParts : Nat) (header : Option JWTHeader)
    (payload : Option JWTPayload) (sigValid : Bool) (now tol : Int) :
    JWTResult :=
  if numParts ≠ 3 then JWTResult.malformed "JWT must have 3 parts"
  else
    match header, payload with
    | some h, some p =>
      if h.alg ≠ "HS256" then
        JWTResult.malformed ("Unsupported algorithm: " ++ h.alg)
      else if !sigValid then JWTResult.invalidSignature
      else if expExpired p now tol then JWTResult.expired
      else if nbfFuture p now tol then
        JWTResult.malformed "Token not yet valid (nbf)"
      else if iatFuture p now tol then
        JWTResult.malformed "Token issued in the future (iat)"
      else if subMissing p then JWTResult.malformed "Missing sub claim"
      else JWTResult.ok (p.sub.getD "")
    | _, _ => JWTResult.malformed "Invalid base64 encoding"

/-- The claim set minted by `createJWT` (src/utils/jwt.ts lines 14-16). -/
structure JWTMint where
  sub : String
  iat : Int
  exp : Int
deriving DecidableEq, Repr

/-- `createJWT` (src/utils/jwt.ts lines 1-44): reject a falsy or short
secret and an out-of-range expiry before any token is built, then mint the
claim set with `iat = now` (seconds) and `exp = iat + expiresInSeconds`.
The base64url encoding and the HMAC-SHA256 signature are platform
primitives applied to this claim set and carry no further logic, so the
minted claim set stands for the token. -/
def createJWT (userId secret : String) (expiresInSeconds : Int)
    (nowSec : Int) : Except String JWTMint :=
  if secret = "" ∨ secret.length < 32 then
    Except.error "JWT_SECRET must be at least 32 characters"
  else if expiresInSeconds ≤ 0 ∨ 86400 < expiresInSeconds then
    Except.error "Invalid expiration time: must be between 1 second and 24 hours"
  else
    Except.ok { sub := userId, iat := nowSec, exp := nowSec + expiresInSeconds }

/-- A KV namespace holding plain string values (`RATE_LIMITS` counters and
`OAUTH_STATE` entries in src/auth/state.ts). -/
def StrKV : Type := List (String × String)

/-- The numeric value of a decimal digit character. -/
def charDigit (c : Char) : Option Nat :=
  if c.isDigit then some (c.toNat - 48) else none

/-- Decimal value of a digit string, most significant first. -/
def digitsValAux : List Char → Nat → Option Nat
  | [], acc => some acc
  | c :: cs, acc =>
    match charDigit c with
    | some d => digitsValAux cs (acc * 10 + d)
    | none => none

/-- `parseInt` on the numeric counter strings this module writes; a
non-numeric string is JavaScript `NaN`, whose comparison with 10 is false —
modelled by defaulting to 0 — and such a counter is never written by
`createState` itself. -/
def parseCounter (s : String) : Int :=
  match s.data with
  | [] => 0
  | l =>
    match digitsValAux l 0 with
    | some n => (n : Int)
    | none => 0

/-- `createState` (src/auth/state.ts lines 4-23): read the short-window
counter under `state:` plus the client IP; return `null` when the counter
is truthy and strictly exceeds 10; otherwise store the incremented counter
(TTL 300 s) and a fresh state token (`uuid` is the value drawn from
`crypto.randomUUID`, TTL 300 s) mapping to the user id.  The window TTLs
are not represented: all calls considered happen inside one 5-minute
window, before any entry expires. -/
def createState (rate : StrKV) (oauthState : StrKV) (uuid : String)
    (userId clientIp : String) : Option String × StrKV × StrKV :=
  let rateLimitKey := "state:" ++ clientIp
  let stateCount := kvLookup rate rateLimitKey
  if (match stateCount with
      | some s => s ≠ "" && 10 < parseCounter s
      | none => false) then
    (none, rate, oauthState)
  else
    let base := match stateCount with
      | some s => if s = "" then "0" else s
      | none => "0"
    let newCount := toString (parseCounter base + 1)
    let rate2 := kvPut rate rateLimitKey newCount
    let oauthState2 := kvPut oauthState uuid userId
    (some uuid, rate2, oauthState2)

/-- Run `createState` repeatedly from the same client IP inside one window:
returns the issued tokens in call order together with the final stores.
Each call draws the same `uuid` value; token uniqueness is irrelevant to
the issuance counter. -/
def runCreateState (userId clientIp : String) :
    Nat → StrKV → StrKV → List (Option String) × StrKV × StrKV
  | 0, rate, oauthState => ([], rate, oauthState)
  | n + 1, rate, oauthState =>
    let r := createState rate oauthState "state-token" userId clientIp
    let rest := runCreateState userId clientIp n r.2.1 r.2.2
    (r.1 :: rest.1, rest.2)

/-- A `RATE_LIMITS` entry as written by `RateLimiter.checkLimit`: the
JSON-parsed array of request timestamps (milliseconds) and the
`expirationTtl` (seconds) it was stored with. -/
def RateKV : Type := List (String × (List Int × Int))

/-- `WINDOW_SIZE` (src/utils/rate-limit.ts line 2), in seconds. -/
def WINDOW_SIZE : Int := 60

/-- `MAX_REQUESTS` (src/utils/rate-limit.ts line 3). -/
def MAX_REQUESTS : Nat := 100

/-- `RateLimiter.checkLimit` (src/utils/rate-limit.ts lines 7-42): read
the timestamp array under `rate:` plus the user id (an absent or unparsable
entry is the empty array), drop timestamps at or before `now` minus the
window in milliseconds, deny without writing when at least `MAX_REQUESTS`
remain, otherwise append `now` and persist with `expirationTtl` equal to
`WINDOW_SIZE`. -/
def RateLimiter.checkLimit (kv : RateKV) (userId : String) (now : Int) :
    Bool × RateKV :=
  let key := "rate:" ++ userId
  let windowStart := now - WINDOW_SIZE * 1000
  let requests :=
    match kvLookup kv key with
    | none => []
    | some (l, _) => l.filter (fun timestamp => windowStart < timestamp)
  if MAX_REQUESTS ≤ requests.length then (false, kv)
  else (true, kvPut kv key (requests ++ [now], WINDOW_SIZE))

/-- Run `RateLimiter.checkLimit` once per timestamp in the list, threading
the store; returns the verdicts in call order and the final store. -/
def runCheckLimit (userId : String) : List Int → RateKV → List Bool × RateKV
  | [], kv => ([], kv)
  | t :: ts, kv =>
    let r := RateLimiter.checkLimit kv userId t
    let rest := runCheckLimit userId ts r.2
    (r.1 :: rest.1, rest.2)

/-- Concrete record, store and oracles shared by witnesses and
counterexamples of the storage and token-manager claims. -/
def tokA : StoredTokens :=
  { access_token := "a1", refresh_token := some "rt1",
    expires_at := 0, token_type := "Bearer", scope := none }

/-- A token store holding, for user `u1`, a record encrypted so that the
storage key `KC` decrypts it (ciphertext `cBoth`). -/
def kvTok : Store :=
  [("tokens:u1",
    { value := { version := 2, data := "cBoth", iv := "iv0" },
      metaVersion := none })]

/-- A token store holding, for user `u1`, a record no key decrypts
(ciphertext `cNone`): a corrupt entry. -/
def kvCorrupt : Store :=
  [("tokens:u1",
    { value := { version := 2, data := "cNone", iv := "iv0" },
      metaVersion := none })]

/-- An external refresh call that always rejects. -/
def toyRefreshFail : String → Except String TokenResponse :=
  fun _ => Except.error "invalid_grant"

/-- A record that only the old key `KO` decrypts (ciphertext `cOld`). -/
def recOld : EncryptedData := { version := 1, data := "cOld", iv := "iv0" }

/-- A record both keys decrypt, to different plaintexts, carrying the old
key generation's version tag 1. -/
def recBoth : EncryptedData := { version := 1, data := "cBoth", iv := "iv0" }

/-- A record no key decrypts. -/
def recNone : EncryptedData := { version := 2, data := "cNone", iv := "iv0" }

/-- An environment with current key `KC` and old key `KO`. -/
def envBoth : Env := { ENCRYPTION_KEY := "KC", ENCRYPTION_KEY_OLD := some "KO" }

/-- C9: `createJWT` rejects out-of-range inputs before producing any token:
an empty or shorter-than-32-character secret, and an `expiresInSeconds`
outside (0, 86400], each yield a thrown error and no token. -/
theorem createJWT_input_guards (userId secret : String)
    (expiresInSeconds nowSec : Int) :
    (secret = "" ∨ secret.length < 32 →
      createJWT userId secret expiresInSeconds nowSec =
        Except.error "JWT_SECRET must be at least 32 characters")
    ∧ (¬ (secret = "" ∨ secret.length < 32) →
      expiresInSeconds ≤ 0 ∨ 86400 < expiresInSeconds →
      createJWT userId secret expiresInSeconds nowSec =
        Except.error "Invalid expiration time: must be between 1 second and 24 hours") := by
  constructor
  · intro h
    simp [createJWT, h]
  · intro h1 h2
    simp [createJWT, h1, h2]

/-- Witness for `createJWT_input_guards` at concrete inputs. -/
theorem createJWT_input_guards_witness :
    createJWT "user123" "short" 3600 0 =
      Except.error "JWT_SECRET must be at least 32 characters"
    ∧ createJWT "user123" "0123456789abcdef0123456789abcdef" 0 0 =
      Except.error "Invalid expiration time: must be between 1 second and 24 hours" :=
  ⟨(createJWT_input_guards "user123" "short" 3600 0).1 (Or.inr (by decide)),
   (createJWT_input_guards "user123" "0123456789abcdef0123456789abcdef" 0 0).2
     (by decide) (Or.inl (by decide))⟩

/-- C10: with a valid signature and no `exp` claim, `validateJWT` never
fails with the expired error at any point in time, and succeeds whenever
`nbf` and `iat` (when present) are not beyond the tolerance in the future
and a non-empty `sub` is present. -/
theorem validateJWT_no_exp_never_expires (h : JWTHeader) (p : JWTPayload)
    (now tol : Int) (halg : h.alg = "HS256") (hexp : p.exp = none) :
    validateJWT 3 (some h) (some p) true now tol ≠ JWTResult.expired
    ∧ (nbfFuture p now tol = false → iatFuture p now tol = false →
      ∀ s, p.sub = some s → s ≠ "" →
      validateJWT 3 (some h) (some p) true now tol = JWTResult.ok s) := by
  have hee : expExpired p now tol = false := by simp [expExpired, hexp]
  constructor
  · cases hnbf : nbfFuture p now tol <;> cases hiat : iatFuture p now tol <;>
      cases hsm : subMissing p <;>
      simp [validateJWT, halg, hee, hnbf, hiat, hsm]
  · intro hnbf hiat s hs hne
    have hsm : subMissing p = false := by simp [subMissing, hs, hne]
    simp [validateJWT, halg, hee, hnbf, hiat, hsm, hs]

/-- Witness for `validateJWT_no_exp_never_expires` at a concrete header,
payload and time. -/
theorem validateJWT_no_exp_never_expires_witness :
    validateJWT 3 (some { alg := "HS256", typ := "JWT" })
        (some { sub := some "user123", exp := none, iat := some 5, nbf := none })
        true 1000000 0 ≠ JWTResult.expired
    ∧ validateJWT 3 (some { alg := "HS256", typ := "JWT" })
        (some { sub := some "user123", exp := none, iat := some 5, nbf := none })
        true 1000000 0 = JWTResult.ok "user123" :=
  ⟨(validateJWT_no_exp_never_expires _ _ 1000000 0 rfl rfl).1,
   (validateJWT_no_exp_never_expires _ _ 1000000 0 rfl rfl).2
     (by decide) (by decide) "user123" rfl (by decide)⟩

/-- C6 (amended): `validateJWT` checks claims only after signature
verification, in the order `exp`, `nbf`, `iat`, `sub`; a token whose `nbf`
or `iat` lies more than the tolerance in the future fails with the
malformed error (`Token not yet valid (nbf)` or
`Token issued in the future (iat)`) — the module has no separate
not-yet-valid error. -/
theorem validateJWT_claim_checks (h : JWTHeader) (p : JWTPayload)
    (now tol : Int) (halg : h.alg = "HS256") :
    validateJWT 3 (some h) (some p) false now tol = JWTResult.invalidSignature
    ∧ (expExpired p now tol = true →
      validateJWT 3 (some h) (some p) true now tol = JWTResult.expired)
    ∧ (expExpired p now tol = false → nbfFuture p now tol = true →
      validateJWT 3 (some h) (some p) true now tol =
        JWTResult.malformed "Token not yet valid (nbf)")
    ∧ (expExpired p now tol = false → nbfFuture p now tol = false →
      iatFuture p now tol = true →
      validateJWT 3 (some h) (some p) true now tol =
        JWTResult.malformed "Token issued in the future (iat)")
    ∧ (expExpired p now tol = false → nbfFuture p now tol = false →
      iatFuture p now tol = false → subMissing p = true →
      validateJWT 3 (some h) (some p) true now tol =
        JWTResult.malformed "Missing sub claim")
    ∧ (expExpired p now tol = false → nbfFuture p now tol = false →
      iatFuture p now tol = false → ∀ s, p.sub = some s → s ≠ "" →
      validateJWT 3 (some h) (some p) true now tol = JWTResult.ok s) := by
  refine ⟨?_, ?_, ?_, ?_, ?_, ?_⟩
  · simp [validateJWT, halg]
  · intro he
    simp [validateJWT, halg, he]
  · intro he hn
    simp [validateJWT, halg, he, hn]
  · intro he hn hi
    simp [validateJWT, halg, he, hn, hi]
  · intro he hn hi hs
    simp [validateJWT, halg, he, hn, hi, hs]
  · intro he hn hi s hs hne
    have hsm : subMissing p = false := by simp [subMissing, hs, hne]
    simp [validateJWT, halg, he, hn, hi, hsm, hs]

/-- Witness for `validateJWT_claim_checks` at a concrete header, payload
and time: an `nbf` sixty seconds in the future yields the malformed error. -/
theorem validateJWT_claim_checks_witness :
    validateJWT 3 (some { alg := "HS256", typ := "JWT" })
        (some { sub := some "user123", exp := some 2000, iat := none, nbf := some 1060 })
        false 1000 0 = JWTResult.invalidSignature
    ∧ validateJWT 3 (some { alg := "HS256", typ := "JWT" })
        (some { sub := some "user123", exp := some 2000, iat := none, nbf := some 1060 })
        true 1000 0 = JWTResult.malformed "Token not yet valid (nbf)" :=
  ⟨(validateJWT_claim_checks _ _ 1000 0 rfl).1,
   (validateJWT_claim_checks _ _ 1000 0 rfl).2.2.1 (by decide) (by decide)⟩

/-- C6 counterexample: a verified three-part token whose `nbf` is beyond
the tolerance in the future fails with the malformed error, not with a
not-yet-valid error — the result type of the module
(`JWTError` codes EXPIRED, INVALID_SIGNATURE, MALFORMED) has no
not-yet-valid case at all. -/
theorem validateJWT_nbf_malformed_cex :
    validateJWT 3 (some { alg := "HS256", typ := "JWT" })
        (some { sub := some "user123", exp := none, iat := none, nbf := some 100 })
        true 0 0 = JWTResult.malformed "Token not yet valid (nbf)" := by
  decide

/-- C7 (amended): from a fresh counter, the first 11 calls to `createState`
within the 5-minute window each return a token and the 12th returns `null`
without creating a state token: the denied call leaves the rate store and
the `OAUTH_STATE` store exactly as they were after the 11th call, the
`OAUTH_STATE` store holding precisely the 11 issued entries and the
counter reading `11`.  The source denies only when the counter read before
the increment strictly exceeds 10. -/
theorem createState_twelve_calls :
    (runCreateState "user1" "1.2.3.4" 12 [] []).1 =
      List.replicate 11 (some "state-token") ++ [none]
    ∧ (runCreateState "user1" "1.2.3.4" 12 [] []).2 =
      (runCreateState "user1" "1.2.3.4" 11 [] []).2
    ∧ (runCreateState "user1" "1.2.3.4" 12 [] []).2.2 =
      List.replicate 11 ("state-token", "user1")
    ∧ kvLookup (runCreateState "user1" "1.2.3.4" 12 [] []).2.1 "state:1.2.3.4" =
      some "11" :=
  ⟨by decide, by rfl, by rfl, by rfl⟩

/-- C7 counterexample: the 11th call within the window from the same
requester still returns a token, not `null`. -/
theorem createState_eleventh_call_cex :
    (runCreateState "user1" "1.2.3.4" 11 [] []).1 =
      List.replicate 11 (some "state-token") := by
  decide

/-- C2 (amended): `TokenStorage.getTokens` returns `null` both when no
entry is stored and when decryption of an existing entry fails (the thrown
error is caught, logged and turned into `null`); when decryption succeeds
the result is whatever the JSON parse yields — absent and corrupt entries
are not distinguished for the caller. -/
theorem getTokens_absent_and_corrupt (decf : AEADDec) (encf : AEADEnc)
    (putOk : Bool) (iv : String) (parseStored : String → Option StoredTokens)
    (ek : String) (kv : Store) (userId : String) :
    (kvLookup kv ("tokens:" ++ userId) = none →
      TokenStorage.getTokens decf encf putOk iv parseStored ek kv userId = none)
    ∧ (∀ entry e s2, kvLookup kv ("tokens:" ++ userId) = some entry →
      decrypt decf encf putOk iv entry.value
          { ENCRYPTION_KEY := ek, ENCRYPTION_KEY_OLD := none }
          (some ("tokens:" ++ userId)) kv = (Except.error e, s2) →
      TokenStorage.getTokens decf encf putOk iv parseStored ek kv userId = none)
    ∧ (∀ entry pt s2, kvLookup kv ("tokens:" ++ userId) = some entry →
      decrypt decf encf putOk iv entry.value
          { ENCRYPTION_KEY := ek, ENCRYPTION_KEY_OLD := none }
          (some ("tokens:" ++ userId)) kv = (Except.ok pt, s2) →
      TokenStorage.getTokens decf encf putOk iv parseStored ek kv userId =
        parseStored pt) := by
  refine ⟨?_, ?_, ?_⟩
  · intro hlook
    simp [TokenStorage.getTokens, hlook]
  · intro entry e s2 hlook hdec
    simp [TokenStorage.getTokens, hlook, hdec]
  · intro entry pt s2 hlook hdec
    simp [TokenStorage.getTokens, hlook, hdec]

/-- Witness for `getTokens_absent_and_corrupt`: an absent entry yields
`null`, and a present entry that decrypts yields the parsed record. -/
theorem getTokens_absent_and_corrupt_witness :
    kvLookup ([] : Store) ("tokens:" ++ "u1") = none
    ∧ TokenStorage.getTokens toyDec toyEnc true "iv" toyParse "KC" [] "u1" = none
    ∧ kvLookup kvTok ("tokens:" ++ "u1") =
      some { value := { version := 2, data := "cBoth", iv := "iv0" }, metaVersion := none }
    ∧ decrypt toyDec toyEnc true "iv" { version := 2, data := "cBoth", iv := "iv0" }
        { ENCRYPTION_KEY := "KC", ENCRYPTION_KEY_OLD := none }
        (some ("tokens:" ++ "u1")) kvTok = (Except.ok "pNew", kvTok)
    ∧ TokenStorage.getTokens toyDec toyEnc true "iv" toyParse "KC" kvTok "u1" =
        toyParse "pNew" :=
  ⟨rfl,
   (getTokens_absent_and_corrupt toyDec toyEnc true "iv" toyParse "KC" [] "u1").1 rfl,
   rfl, rfl,
   (getTokens_absent_and_corrupt toyDec toyEnc true "iv" toyParse "KC" kvTok "u1").2.2
     _ "pNew" kvTok rfl rfl⟩

/-- C2 counterexample: for user `u1` an entry exists in the store, but it
fails to decrypt and `getTokens` returns `null` — the failure is not
surfaced as an error and is indistinguishable from "not found". -/
theorem getTokens_corrupt_entry_cex :
    kvLookup kvCorrupt ("tokens:" ++ "u1") =
      some { value := { version := 2, data := "cNone", iv := "iv0" }, metaVersion := none }
    ∧ TokenStorage.getTokens toyDec toyEnc true "iv" toyParse "KC" kvCorrupt "u1" = none :=
  ⟨rfl, rfl⟩

/-- C5: when the stored credential is expired, carries a refresh token and
the external refresh call fails, `getValidTokens` fails with
`Failed to refresh access token` and the store is untouched — the stored
record is never deleted, so a later call can retry with the same
still-stored refresh token. -/
theorem getValidTokens_refresh_failure_preserves_record (decf : AEADDec)
    (encf : AEADEnc) (iv : String) (parseStored : String → Option StoredTokens)
    (serializeStored : StoredTokens → String) (putOk : Bool)
    (refreshAccessToken : String → Except String TokenResponse) (ek : String)
    (now : Int) (kv : Store) (userId : String) (tokens : StoredTokens)
    (rt e : String)
    (hload : TokenStorage.getTokens decf encf putOk iv parseStored ek kv userId =
      some tokens)
    (hexp : tokens.expires_at ≤ now)
    (hrt : tokens.refresh_token = some rt) (hrtne : rt ≠ "")
    (hfail : refreshAccessToken rt = Except.error e) :
    TokenManager.getValidTokens decf encf iv parseStored serializeStored putOk
      refreshAccessToken ek now kv userId =
      (Except.error "Failed to refresh access token", kv) := by
  simp [TokenManager.getValidTokens, hload, hexp, hrt, hrtne, hfail]

/-- Witness for `getValidTokens_refresh_failure_preserves_record` at a
concrete store, record and failing refresh call. -/
theorem getValidTokens_refresh_failure_preserves_record_witness :
    TokenStorage.getTokens toyDec toyEnc true "iv" toyParse "KC" kvTok "u1" = some tokA
    ∧ tokA.expires_at ≤ 1000
    ∧ tokA.refresh_token = some "rt1"
    ∧ "rt1" ≠ ""
    ∧ toyRefreshFail "rt1" = Except.error "invalid_grant"
    ∧ TokenManager.getValidTokens toyDec toyEnc "iv" toyParse toySer true
        toyRefreshFail "KC" 1000 kvTok "u1" =
      (Except.error "Failed to refresh access token", kvTok) :=
  ⟨rfl, by decide, rfl, by decide, rfl,
   getValidTokens_refresh_failure_preserves_record toyDec toyEnc "iv" toyParse
     toySer true toyRefreshFail "KC" 1000 kvTok "u1" tokA "rt1" "invalid_grant"
     rfl (by decide) rfl (by decide) rfl⟩

/-- The updated record built by a successful refresh of `tokA` at time
1000 with response access token `a2` and expiry delta 3600 s. -/
def updA : StoredTokens :=
  { access_token := "a2", refresh_token := some "rt1",
    expires_at := 3601000, token_type := "Bearer", scope := none }

/-- The refresh response returned by `toyRefresh` for `rt1`: it carries a
rotated refresh token `rt2`. -/
def respA : TokenResponse :=
  { access_token := "a2", expires_in := 3600, refresh_token := some "rt2",
    scope := "s", token_type := "Bearer" }

/-- C4 (amended): when the stored credential is expired, carries a refresh
token and the external refresh call succeeds, `getValidTokens` builds the
updated record by overriding only the access token and the expiry — the
refresh token always stays the original one, even when the provider
returned a rotated refresh token, which is dropped — persists it via
`storeTokens` before returning it, and treats a persistence failure as a
refresh failure: a record that was not durably stored is never handed
back. -/
theorem getValidTokens_refresh_persists_before_return (decf : AEADDec)
    (encf : AEADEnc) (iv : String) (parseStored : String → Option StoredTokens)
    (serializeStored : StoredTokens → String) (putOk : Bool)
    (refreshAccessToken : String → Except String TokenResponse) (ek : String)
    (now : Int) (kv : Store) (userId : String) (tokens : StoredTokens)
    (rt : String) (resp : TokenResponse) (upd : StoredTokens)
    (hload : TokenStorage.getTokens decf encf putOk iv parseStored ek kv userId =
      some tokens)
    (hexp : tokens.expires_at ≤ now)
    (hrt : tokens.refresh_token = some rt) (hrtne : rt ≠ "")
    (hok : refreshAccessToken rt = Except.ok resp)
    (hupd : upd = { tokens with access_token := resp.access_token,
                                expires_at := now + resp.expires_in * 1000 }) :
    upd.refresh_token = tokens.refresh_token
    ∧ (putOk = true →
      TokenManager.getValidTokens decf encf iv parseStored serializeStored putOk
        refreshAccessToken ek now kv userId =
        (Except.ok upd,
         kvPut kv ("tokens:" ++ userId)
           { value := encrypt encf
               { ENCRYPTION_KEY := ek, ENCRYPTION_KEY_OLD := none }
               iv (serializeStored upd),
             metaVersion := none }))
    ∧ (putOk = false →
      TokenManager.getValidTokens decf encf iv parseStored serializeStored putOk
        refreshAccessToken ek now kv userId =
        (Except.error "Failed to refresh access token", kv)) := by
  subst hupd
  refine ⟨rfl, ?_, ?_⟩
  · intro hput
    subst hput
    simp [TokenManager.getValidTokens, TokenStorage.storeTokens, hload, hexp,
      hrt, hrtne, hok]
  · intro hput
    subst hput
    simp [TokenManager.getValidTokens, TokenStorage.storeTokens, hload, hexp,
      hrt, hrtne, hok]

/-- Witness for `getValidTokens_refresh_persists_before_return` at a
concrete store, record and successful refresh call. -/
theorem getValidTokens_refresh_persists_before_return_witness :
    TokenStorage.getTokens toyDec toyEnc true "iv" toyParse "KC" kvTok "u1" = some tokA
    ∧ tokA.expires_at ≤ 1000
    ∧ tokA.refresh_token = some "rt1"
    ∧ "rt1" ≠ ""
    ∧ toyRefresh "rt1" = Except.ok respA
    ∧ updA = { tokA with access_token := respA.access_token,
                         expires_at := 1000 + respA.expires_in * 1000 }
    ∧ updA.refresh_token = tokA.refresh_token
    ∧ TokenManager.getValidTokens toyDec toyEnc "iv" toyParse toySer true
        toyRefresh "KC" 1000 kvTok "u1" =
      (Except.ok updA,
       kvPut kvTok ("tokens:" ++ "u1")
         { value := encrypt toyEnc
             { ENCRYPTION_KEY := "KC", ENCRYPTION_KEY_OLD := none }
             "iv" (toySer updA),
           metaVersion := none }) :=
  ⟨rfl, by decide, rfl, by decide, rfl, by decide,
   (getValidTokens_refresh_persists_before_return toyDec toyEnc "iv" toyParse
     toySer true toyRefresh "KC" 1000 kvTok "u1" tokA "rt1" respA updA
     rfl (by decide) rfl (by decide) rfl (by decide)).1,
   (getValidTokens_refresh_persists_before_return toyDec toyEnc "iv" toyParse
     toySer true toyRefresh "KC" 1000 kvTok "u1" tokA "rt1" respA updA
     rfl (by decide) rfl (by decide) rfl (by decide)).2.1 rfl⟩

/-- C4 counterexample: the refresh response carries a rotated refresh token
`rt2`, yet the record `getValidTokens` persists and returns still carries
the original `rt1` — the rotated refresh token is not stored. -/
theorem getValidTokens_rotated_refresh_dropped_cex :
    toyRefresh "rt1" = Except.ok respA
    ∧ respA.refresh_token = some "rt2"
    ∧ (TokenManager.getValidTokens toyDec toyEnc "iv" toyParse toySer true
        toyRefresh "KC" 1000 kvTok "u1").1 = Except.ok updA
    ∧ updA.refresh_token = some "rt1"
    ∧ (some "rt1" : Option String) ≠ some "rt2" :=
  ⟨rfl, rfl, rfl, rfl, by decide⟩

/-- C1 (amended): when a record decrypts only under the old key and the
rotation write-back fails — the stored entry is absent at write time, or
the entry is present, not yet rotated, and the KV put rejects — the error
propagates and the in-flight `decrypt` call fails instead of returning the
recovered plaintext; the store, however, is left exactly as it was, so the
original old-key ciphertext (wherever stored) is never discarded and
remains decryptable under the old key. -/
theorem decrypt_writeback_failure_propagates (decf : AEADDec) (encf : AEADEnc)
    (putOk : Bool) (iv : String) (parsed : EncryptedData) (env : Env)
    (tk : String) (store : Store) (oldKey p : String)
    (hcur : decryptWithKey decf parsed env.ENCRYPTION_KEY = none)
    (hold : env.ENCRYPTION_KEY_OLD = some oldKey)
    (hdec : decryptWithKey decf parsed oldKey = some p)
    (hfail : kvLookup store tk = none ∨
      ∃ ent, kvLookup store tk = some ent ∧
        ent.metaVersion ≠ some CURRENT_VERSION ∧ putOk = false) :
    ∃ msg, decrypt decf encf putOk iv parsed env (some tk) store =
      (Except.error msg, store) := by
  rcases hfail with hnone | ⟨ent, hent, hver, hput⟩
  · refine ⟨"Token " ++ tk ++ " not found", ?_⟩
    simp [decrypt, reEncryptToken, performReEncryptionWithConditionalWrite,
      hcur, hold, hdec, hnone]
  · refine ⟨"KV put failed", ?_⟩
    subst hput
    simp [decrypt, reEncryptToken, performReEncryptionWithConditionalWrite,
      hcur, hold, hdec, hent, hver]

/-- Witness for `decrypt_writeback_failure_propagates`: the entry is absent
from the store at write time. -/
theorem decrypt_writeback_failure_propagates_witness :
    decryptWithKey toyDec recOld "KC" = none
    ∧ envBoth.ENCRYPTION_KEY_OLD = some "KO"
    ∧ decryptWithKey toyDec recOld "KO" = some "pOldOnly"
    ∧ kvLookup ([] : Store) "tokens:u1" = none
    ∧ ∃ msg, decrypt toyDec toyEnc true "iv" recOld envBoth (some "tokens:u1") [] =
      (Except.error msg, ([] : Store)) :=
  ⟨rfl, rfl, rfl, rfl,
   decrypt_writeback_failure_propagates toyDec toyEnc true "iv" recOld envBoth
     "tokens:u1" [] "KO" "pOldOnly" rfl rfl rfl (Or.inl rfl)⟩

/-- C1 counterexample: the old key recovers the plaintext `pOldOnly`, yet
with the stored entry absent at write time the rotation write-back throws
`Token tokens:u1 not found` and the in-flight `decrypt` call fails instead
of returning the recovered plaintext. -/
theorem decrypt_writeback_failure_cex :
    decryptWithKey toyDec recOld "KO" = some "pOldOnly"
    ∧ decrypt toyDec toyEnc true "iv" recOld envBoth (some "tokens:u1") [] =
      (Except.error "Token tokens:u1 not found", ([] : Store)) :=
  ⟨rfl, rfl⟩

/-- C3 (amended): `decrypt` always attempts the current key first,
whatever version tag the record carries; when that fails it retries the old
key when one is configured; it throws `Failed to decrypt with any available
key` only when no old key exists, while a failure of the old-key attempt
propagates the raw platform error — so the two exhausted-keys cases are
distinguishable. -/
theorem decrypt_key_order (decf : AEADDec) (encf : AEADEnc) (putOk : Bool)
    (iv : String) (parsed : EncryptedData) (env : Env)
    (tokenKey : Option String) (store : Store) :
    (∀ p, decryptWithKey decf parsed env.ENCRYPTION_KEY = some p →
      decrypt decf encf putOk iv parsed env tokenKey store = (Except.ok p, store))
    ∧ (decryptWithKey decf parsed env.ENCRYPTION_KEY = none →
      env.ENCRYPTION_KEY_OLD = none →
      decrypt decf encf putOk iv parsed env tokenKey store =
        (Except.error "Failed to decrypt with any available key", store))
    ∧ (∀ ko, decryptWithKey decf parsed env.ENCRYPTION_KEY = none →
      env.ENCRYPTION_KEY_OLD = some ko →
      decryptWithKey decf parsed ko = none →
      decrypt decf encf putOk iv parsed env tokenKey store =
        (Except.error "OperationError", store))
    ∧ (∀ ko p, decryptWithKey decf parsed env.ENCRYPTION_KEY = none →
      env.ENCRYPTION_KEY_OLD = some ko →
      decryptWithKey decf parsed ko = some p → tokenKey = none →
      decrypt decf encf putOk iv parsed env tokenKey store =
        (Except.ok p, store)) := by
  refine ⟨?_, ?_, ?_, ?_⟩
  · intro p hp
    simp [decrypt, hp]
  · intro hcur hold
    simp [decrypt, hcur, hold]
  · intro ko hcur hold hko
    simp [decrypt, hcur, hold, hko]
  · intro ko p hcur hold hko htk
    subst htk
    simp [decrypt, hcur, hold, hko]

/-- Witness for `decrypt_key_order`: the current key succeeds on a record
tagged with the old generation's version. -/
theorem decrypt_key_order_witness :
    decryptWithKey toyDec recBoth "KC" = some "pNew"
    ∧ decrypt toyDec toyEnc true "iv" recBoth envBoth none [] =
      (Except.ok "pNew", ([] : Store)) :=
  ⟨rfl,
   (decrypt_key_order toyDec toyEnc true "iv" recBoth envBoth none []).1
     "pNew" rfl⟩

/-- C3 counterexample: the record carries version 1 (the old generation)
and the old key would decrypt it to `pOld`, yet `decrypt` returns the
current key's plaintext `pNew` — it does not attempt the key matching
`record.version` first; and when both keys fail, the error is the
propagated platform error, not the single `Failed to decrypt with any
available key` failure mode. -/
theorem decrypt_key_order_cex :
    recBoth.version = 1
    ∧ decryptWithKey toyDec recBoth "KO" = some "pOld"
    ∧ decrypt toyDec toyEnc true "iv" recBoth envBoth none [] =
      (Except.ok "pNew", ([] : Store))
    ∧ "pNew" ≠ "pOld"
    ∧ decrypt toyDec toyEnc true "iv" recNone envBoth none [] =
      (Except.error "OperationError", ([] : Store))
    ∧ "OperationError" ≠ "Failed to decrypt with any available key" :=
  ⟨rfl, rfl, rfl, by decide, rfl, by decide⟩

/-- Every timestamp at least `T` survives the window filter of a call made
before `T + 60000` (the window size in milliseconds). -/
theorem filter_window_keep (l : List Int) (now T : Int)
    (hall : ∀ t ∈ l, T ≤ t) (hnow : now < T + 60000) :
    l.filter (fun timestamp => now - WINDOW_SIZE * 1000 < timestamp) = l := by
  rw [List.filter_eq_self]
  intro a ha
  have h := hall a ha
  simp only [WINDOW_SIZE, decide_eq_true_eq]
  omega

/-- A call inside the window against a full counter is denied and leaves
the store untouched. -/
theorem checkLimit_denied_of_full (uid : String) (T now : Int) (kv : RateKV)
    (acc : List Int)
    (hlook : kvLookup kv ("rate:" ++ uid) = some (acc, WINDOW_SIZE))
    (hall : ∀ t ∈ acc, T ≤ t) (hnow : now < T + 60000)
    (hfull : MAX_REQUESTS ≤ acc.length) :
    RateLimiter.checkLimit kv uid now = (false, kv) := by
  simp only [RateLimiter.checkLimit, hlook]
  rw [filter_window_keep acc now T hall hnow]
  simp [hfull]

/-- A call inside the window against a counter with room is allowed and
appends its timestamp, persisted with the window-size TTL. -/
theorem checkLimit_allowed_step (uid : String) (T now : Int) (kv : RateKV)
    (acc : List Int)
    (hlook : (kvLookup kv ("rate:" ++ uid) = none ∧ acc = []) ∨
      kvLookup kv ("rate:" ++ uid) = some (acc, WINDOW_SIZE))
    (hall : ∀ t ∈ acc, T ≤ t) (hnow : now < T + 60000)
    (hroom : acc.length < MAX_REQUESTS) :
    RateLimiter.checkLimit kv uid now =
      (true, kvPut kv ("rate:" ++ uid) (acc ++ [now], WINDOW_SIZE)) := by
  rcases hlook with ⟨h1, h2⟩ | h
  · subst h2
    simp [RateLimiter.checkLimit, h1, MAX_REQUESTS]
  · simp only [RateLimiter.checkLimit, h]
    rw [filter_window_keep acc now T hall hnow]
    simp [Nat.not_le.mpr hroom]

/-- Running `checkLimit` over a concatenation of call times splits into the
two runs with the store threaded through. -/
theorem runCheckLimit_append (uid : String) (a b : List Int) (kv : RateKV) :
    runCheckLimit uid (a ++ b) kv =
      ((runCheckLimit uid a kv).1 ++
        (runCheckLimit uid b (runCheckLimit uid a kv).2).1,
       (runCheckLimit uid b (runCheckLimit uid a kv).2).2) := by
  induction a generalizing kv with
  | nil => simp [runCheckLimit]
  | cons t ts ih =>
    simp [runCheckLimit, ih]

/-- Invariant run: starting from a store whose counter holds `acc` (or no
counter and `acc = []`), with every time inside the window and at most 100
calls in total, every call is allowed and the final counter holds all the
timestamps in order, with the window-size TTL. -/
theorem runCheckLimit_allowed_inv (uid : String) (T : Int) :
    ∀ (ts acc : List Int) (kv : RateKV),
    ((kvLookup kv ("rate:" ++ uid) = none ∧ acc = []) ∨
      kvLookup kv ("rate:" ++ uid) = some (acc, WINDOW_SIZE)) →
    (∀ t ∈ acc, T ≤ t ∧ t < T + 60000) →
    (∀ t ∈ ts, T ≤ t ∧ t < T + 60000) →
    acc.length + ts.length ≤ 100 →
    (runCheckLimit uid ts kv).1 = List.replicate ts.length true ∧
    ((kvLookup (runCheckLimit uid ts kv).2 ("rate:" ++ uid) = none ∧
        acc ++ ts = []) ∨
      kvLookup (runCheckLimit uid ts kv).2 ("rate:" ++ uid) =
        some (acc ++ ts, WINDOW_SIZE)) := by
  intro ts
  induction ts with
  | nil =>
    intro acc kv hlook hacc hts hlen
    constructor
    · simp [runCheckLimit]
    · simpa [runCheckLimit] using hlook
  | cons t ts ih =>
    intro acc kv hlook hacc hts hlen
    have hroom : acc.length < MAX_REQUESTS := by
      simp only [List.length_cons] at hlen
      simp only [MAX_REQUESTS]
      omega
    have hstep := checkLimit_allowed_step uid T t kv acc hlook
      (fun x hx => (hacc x hx).1) (hts t (by simp)).2 hroom
    have hlook2 : (kvLookup (kvPut kv ("rate:" ++ uid) (acc ++ [t], WINDOW_SIZE))
        ("rate:" ++ uid) = none ∧ acc ++ [t] = []) ∨
        kvLookup (kvPut kv ("rate:" ++ uid) (acc ++ [t], WINDOW_SIZE))
          ("rate:" ++ uid) = some (acc ++ [t], WINDOW_SIZE) := by
      right
      simp
    have hacc2 : ∀ x ∈ acc ++ [t], T ≤ x ∧ x < T + 60000 := by
      intro x hx
      rcases List.mem_append.mp hx with h | h
      · exact hacc x h
      · simp only [List.mem_singleton] at h
        subst h
        exact hts x (by simp)
    have hts2 : ∀ x ∈ ts, T ≤ x ∧ x < T + 60000 := by
      intro x hx
      exact hts x (by simp [hx])
    have hlen2 : (acc ++ [t]).length + ts.length ≤ 100 := by
      simp only [List.length_append, List.length_singleton]
      simp only [List.length_cons] at hlen
      omega
    have hrec := ih (acc ++ [t])
      (kvPut kv ("rate:" ++ uid) (acc ++ [t], WINDOW_SIZE)) hlook2 hacc2 hts2 hlen2
    constructor
    · simp only [runCheckLimit, hstep]
      simp [hrec.1, List.replicate_succ]
    · have := hrec.2
      simp only [runCheckLimit, hstep]
      simpa [List.append_assoc] using this

/-- C8: from an empty counter, calls 1 through 100 within one 60-second
window are allowed, call 101 within the same window is denied without
touching the stored counter, and each allowed call persists the counter
with a TTL equal to the window size. -/
theorem checkLimit_window_contract (uid : String) (T : Int) (ts : List Int)
    (hlen : ts.length = 101)
    (hwin : ∀ t ∈ ts, T ≤ t ∧ t < T + 60000) :
    (runCheckLimit uid ts []).1 = List.replicate 100 true ++ [false]
    ∧ (runCheckLimit uid ts []).2 = (runCheckLimit uid (ts.take 100) []).2
    ∧ kvLookup (runCheckLimit uid (ts.take 100) []).2 ("rate:" ++ uid) =
        some (ts.take 100, WINDOW_SIZE) := by
  have hflen : (ts.take 100).length = 100 := by
    rw [List.length_take, hlen]
    omega
  have hblen : (ts.drop 100).length = 1 := by
    rw [List.length_drop, hlen]
  obtain ⟨tl, htl⟩ := List.length_eq_one.mp hblen
  have hsplit : ts.take 100 ++ [tl] = ts := by
    rw [← htl, List.take_append_drop]
  have hfront : ∀ t ∈ ts.take 100, T ≤ t ∧ t < T + 60000 :=
    fun t ht => hwin t (List.take_subset 100 ts ht)
  have htlwin : T ≤ tl ∧ tl < T + 60000 :=
    hwin tl (List.drop_subset 100 ts (by rw [htl]; simp))
  have hinv := runCheckLimit_allowed_inv uid T (ts.take 100) [] []
    (Or.inl ⟨rfl, rfl⟩) (by simp) hfront (by simp [hflen])
  have hlook2 : kvLookup (runCheckLimit uid (ts.take 100) []).2 ("rate:" ++ uid) =
      some (ts.take 100, WINDOW_SIZE) := by
    rcases hinv.2 with ⟨_, hempty⟩ | h
    · exfalso
      have : (ts.take 100).length = 0 := by
        simp only [List.nil_append] at hempty
        rw [hempty]
        rfl
      omega
    · simpa using h
  have hdenied := checkLimit_denied_of_full uid T tl
    (runCheckLimit uid (ts.take 100) []).2 (ts.take 100) hlook2
    (fun x hx => (hfront x hx).1) htlwin.2 (by rw [hflen]; decide)
  have happ := runCheckLimit_append uid (ts.take 100) [tl] []
  rw [hsplit] at happ
  have hlast : runCheckLimit uid [tl] (runCheckLimit uid (ts.take 100) []).2 =
      ([false], (runCheckLimit uid (ts.take 100) []).2) := by
    simp [runCheckLimit, hdenied]
  refine ⟨?_, ?_, hlook2⟩
  · rw [happ, hlast]
    simp only [hinv.1, hflen]
  · rw [happ, hlast]

/-- Witness for `checkLimit_window_contract`: 101 calls at the same
instant. -/
theorem checkLimit_window_contract_witness :
    (List.replicate 101 (0 : Int)).length = 101
    ∧ ((runCheckLimit "u" (List.replicate 101 (0 : Int)) []).1 =
        List.replicate 100 true ++ [false]
      ∧ (runCheckLimit "u" (List.replicate 101 (0 : Int)) []).2 =
        (runCheckLimit "u" ((List.replicate 101 (0 : Int)).take 100) []).2
      ∧ kvLookup (runCheckLimit "u" ((List.replicate 101 (0 : Int)).take 100) []).2
          ("rate:" ++ "u") =
        some ((List.replicate 101 (0 : Int)).take 100, WINDOW_SIZE)) :=
  ⟨by simp,
   checkLimit_window_contract "u" 0 (List.replicate 101 (0 : Int)) (by simp)
     (by
       intro t ht
       have h := List.eq_of_mem_replicate ht
       subst h
       constructor <;> norm_num)⟩
